import Mathlib

/-!
Shallow embedding of the Gantt-chart client of this repository
(`GanttClient`, `TimelineHeader`, `SCurveGraph`) for verification.

Modelling conventions, used throughout:

* Calendar dates are modelled as integer day numbers (`Int`); the ISO
  strings `yyyy-MM-dd` handled by `parseISO` / `format` / `addDays` of
  date-fns are rendered and read back through an explicit proleptic
  Gregorian calendar (`daysFromCivil` / `civilFromDays`) where string
  contents matter.
* JavaScript strings are modelled as `List Char` (`JStr`); JS falsiness
  of a string (`!s`, `s || t`) is emptiness of the list.
* Fallible host operations (the `Date` free-form parser, `parseISO` on a
  malformed string) are `Option` / `Except` valued; an exception that
  aborts the surrounding JS function is an `Except.error`.
-/

namespace Gantt

/-- JS strings, modelled as their character lists. -/
abbrev JStr := List Char

/-- `Task['status']` in the source. -/
inductive Status where
  | notStarted
  | inProgress
  | completed
  deriving DecidableEq, Repr

/-- `Task['type']` in the source. -/
inductive TaskType where
  | task
  | group
  deriving DecidableEq, Repr

/-- `ViewMode` from `@/shared/chart-kernel/types`: the chart zoom level. -/
inductive ViewMode where
  | day
  | week
  | month
  deriving DecidableEq, Repr

/-- `GanttWindowMode` from GanttClient: `'project' | '4w'`. -/
inductive WindowMode where
  | project
  | fourW
  deriving DecidableEq, Repr

/-- The fields of `Task` (types/construction) that the Gantt client reads
and writes.  Optional / possibly-empty string dates (`actualStartDate`,
`actualEndDate`, a falsy `planStartDate`) are `Option Int`: `none` stands
for `undefined` or `''`.  Fields unused by the verified operations
(`projectId`, `cost`, `quantity`, `responsible`, `color`, `order`,
`predecessors`) are omitted. -/
structure Task where
  id : Nat
  parentTaskId : Option Nat
  type : TaskType
  category : JStr
  subcategory : Option JStr
  subsubcategory : Option JStr
  planStartDate : Option Int
  planEndDate : Int
  progress : Int
  status : Status
  actualStartDate : Option Int
  actualEndDate : Option Int
  progressUpdatedAt : Option Int
  remarks : Option JStr
  deriving DecidableEq, Repr

/-- `handleProgressUpdate` from GanttClient, as the merge of the computed
`updateData` into the stored task (`updateTask` is a partial merge).
Arguments mirror `(taskId, newProgress, updateDate, reason)`, with the
task already looked up. -/
def handleProgressUpdate (task : Task) (newProgress updateDate : Int)
    (reason : Option JStr) : Task :=
  let isStartingWork := newProgress = -1
  let actualProgress := if isStartingWork then 0 else newProgress
  let newStatus : Status :=
    if actualProgress = 100 then .completed
    else if actualProgress > 0 ∨ isStartingWork then .inProgress
    else .notStarted
  let t0 : Task :=
    { task with
      progress := actualProgress, progressUpdatedAt := some updateDate,
      status := newStatus }
  let t1 : Task :=
    match reason with
    | some r => { t0 with remarks := some r }
    | none => t0
  let t2 : Task :=
    if isStartingWork then { t1 with actualStartDate := some updateDate }
    else if actualProgress = 0 then
      (if newStatus = .inProgress then
        (match task.actualStartDate with
         | none => { t1 with actualStartDate := some updateDate }
         | some _ => t1)
       else { t1 with actualStartDate := none })
    else if actualProgress > 0 then
      (match task.actualStartDate with
       | none => { t1 with actualStartDate := task.planStartDate }
       | some a =>
         if updateDate < a then { t1 with actualStartDate := some updateDate } else t1)
    else t1
  if actualProgress = 100 then { t2 with actualEndDate := some updateDate }
  else
    match task.actualEndDate with
    | some _ => { t2 with actualEndDate := none }
    | none => t2

/-- A completed task used as concrete input for the progress-regression
scenarios (progress 100, actual dates recorded). -/
def completedTask : Task :=
  { id := 1, parentTaskId := none, type := .task, category := [],
    subcategory := none, subsubcategory := none, planStartDate := some 1,
    planEndDate := 30, progress := 100, status := .completed,
    actualStartDate := some 5, actualEndDate := some 20,
    progressUpdatedAt := none, remarks := none }

/-- The spec's progress-update scenario task: plan start 2024-01-01
(modelled as day 1), no actuals recorded yet. -/
def freshTask : Task :=
  { completedTask with
    progress := 0, status := .notStarted,
    actualStartDate := none, actualEndDate := none }

/-- `getX` from `SCurveGraph.tsx`: the S-curve x coordinate of a date.
`diff` is `differenceInDays(date, timelineStart)`; with dates as day
numbers that difference is exact.  Pixel values are `ℚ`, with the source's
float literal `30.44` as the exact rational it denotes. -/
def getX (viewMode : ViewMode) (cellWidth : ℚ) (timelineStart date : Int) : ℚ :=
  let diff : ℚ := ((date - timelineStart : Int) : ℚ)
  match viewMode with
  | .day => diff * cellWidth
  | .week => (diff / 7) * cellWidth
  | .month => (diff / (30.44 : ℚ)) * cellWidth

/-- Modelled from the spec: the Coordinate Mapper contract `dateToX`
(spec section 4.2) — day: (date − start) × cellWidth; week: (date − start)
/ 7 × cellWidth; month: (date − start) / 30.44 × cellWidth. -/
def dateToX (date timelineStart : Int) (zoom : ViewMode) (cellWidth : ℚ) : ℚ :=
  match zoom with
  | .day => ((date - timelineStart : Int) : ℚ) * cellWidth
  | .week => ((date - timelineStart : Int) : ℚ) / 7 * cellWidth
  | .month => ((date - timelineStart : Int) : ℚ) / 30.44 * cellWidth

/-- A timeline date as `TimelineHeader` inspects it: `getFullYear()` and
`getMonth()` of a JS `Date`. -/
structure CalDate where
  year : Int
  month : Int
  deriving DecidableEq, Repr

/-- The group-membership test of `TimelineHeader`'s top row: at `day` and
`week` zoom an item belongs to the group sharing its month and year, at
`month` zoom to the group sharing its year. -/
def belongsTo (viewMode : ViewMode) (item group : CalDate) : Bool :=
  match viewMode with
  | .day => item.month == group.month && item.year == group.year
  | .week => item.month == group.month && item.year == group.year
  | .month => item.year == group.year

/-- The width in pixels of one group header cell in `TimelineHeader`:
(number of timeline items belonging to the group) × `config.cellWidth`.
The source's final `else` branch (`12 * cellWidth`) is unreachable for
the three-valued `ViewMode`. -/
def headerGroupWidth (viewMode : ViewMode) (items : List CalDate)
    (cellWidth : Nat) (group : CalDate) : Nat :=
  match viewMode with
  | .day =>
    (items.filter (fun item => belongsTo .day item group)).length * cellWidth
  | .week =>
    (items.filter (fun item => belongsTo .week item group)).length * cellWidth
  | .month =>
    (items.filter (fun m => belongsTo .month m group)).length * cellWidth

/-- Concrete timeline items for the C4 witness: two January days and one
February day of 2024 (JS months are 0-based). -/
def c4Items : List CalDate := [⟨2024, 0⟩, ⟨2024, 0⟩, ⟨2024, 1⟩]

/-- Concrete group row for the C4 witness: January and February 2024. -/
def c4Groups : List CalDate := [⟨2024, 0⟩, ⟨2024, 1⟩]

/-- Gregorian leap year. -/
def isLeapYear (y : Int) : Bool :=
  y % 4 == 0 && (y % 100 != 0 || y % 400 == 0)

/-- Length of month `m` (1-12) of year `y`. -/
def daysInMonth (y m : Int) : Int :=
  if m = 2 then (if isLeapYear y then 29 else 28)
  else if m = 4 ∨ m = 6 ∨ m = 9 ∨ m = 11 then 30
  else 31

/-- Day number (1970-01-01 = day 0, a Thursday) of a Gregorian date. -/
def daysFromCivil (y m d : Int) : Int :=
  let yAdj := if m ≤ 2 then y - 1 else y
  let era := (if 0 ≤ yAdj then yAdj else yAdj - 399) / 400
  let yoe := yAdj - era * 400
  let mp := (m + 9) % 12
  let doy := (153 * mp + 2) / 5 + d - 1
  let doe := yoe * 365 + yoe / 4 - yoe / 100 + doy
  era * 146097 + doe - 719468

/-- Gregorian date (year, month, day) of a day number. -/
def civilFromDays (z0 : Int) : Int × Int × Int :=
  let z := z0 + 719468
  let era := (if 0 ≤ z then z else z - 146096) / 146097
  let doe := z - era * 146097
  let yoe := (doe - doe / 1460 + doe / 36524 - doe / 146096) / 365
  let y := yoe + era * 400
  let doy := doe - (365 * yoe + yoe / 4 - yoe / 100)
  let mp := (5 * doy + 2) / 153
  let d := doy - (153 * mp + 2) / 5 + 1
  let m := if mp < 10 then mp + 3 else mp - 9
  (if m ≤ 2 then y + 1 else y, m, d)

/-- The character of a decimal digit 0-9. -/
def digitChar (n : Int) : Char := Char.ofNat (48 + n.toNat)

/-- The numeric value of a digit character. -/
def digitVal (c : Char) : Int := (c.toNat : Int) - 48

/-- Two decimal digits, zero padded. -/
def pad2 (n : Int) : JStr := [digitChar ((n / 10) % 10), digitChar (n % 10)]

/-- Four decimal digits, zero padded. -/
def pad4 (n : Int) : JStr :=
  [digitChar ((n / 1000) % 10), digitChar ((n / 100) % 10),
    digitChar ((n / 10) % 10), digitChar (n % 10)]

/-- date-fns `format(date, 'yyyy-MM-dd')` on a day number. -/
def dayToIso (z : Int) : JStr :=
  let c := civilFromDays z
  pad4 c.1 ++ ['-'] ++ pad2 c.2.1 ++ ['-'] ++ pad2 c.2.2

/-- date-fns `parseISO` restricted to the date-only strings the import
loop feeds it: a valid `yyyy-MM-dd` string gives its day number, anything
else is an invalid date (`none`, i.e. downstream `format` throws). -/
def isoToDay (s : JStr) : Option Int :=
  match s with
  | [y1, y2, y3, y4, '-', m1, m2, '-', d1, d2] =>
    if ([y1, y2, y3, y4, m1, m2, d1, d2].all Char.isDigit) then
      let y := digitVal y1 * 1000 + digitVal y2 * 100 + digitVal y3 * 10 + digitVal y4
      let m := digitVal m1 * 10 + digitVal m2
      let d := digitVal d1 * 10 + digitVal d2
      if 1 ≤ m ∧ m ≤ 12 ∧ 1 ≤ d ∧ d ≤ daysInMonth y m then some (daysFromCivil y m d)
      else none
    else none
  | _ => none

/-- JS whitespace as `trim` / `parseInt` skip it (the common characters). -/
def isJsWhitespace (c : Char) : Bool :=
  c == ' ' || c == '\t' || c == '\n' || c == '\r'

/-- JS `String.prototype.trim()`. -/
def jsTrim (s : JStr) : JStr :=
  ((s.dropWhile isJsWhitespace).reverse.dropWhile isJsWhitespace).reverse

/-- JS `a || b` on strings: the empty string is falsy. -/
def jsOr (a b : JStr) : JStr := if a = [] then b else a

/-- Decimal value of a digit string. -/
def digitsToNat (l : JStr) : Nat :=
  l.foldl (fun acc c => acc * 10 + (c.toNat - 48)) 0

/-- The longest leading digit run of a string, `none` when there is none. -/
def leadingDigits (l : JStr) : Option Nat :=
  let ds := l.takeWhile Char.isDigit
  if ds = [] then none else some (digitsToNat ds)

/-- JS `parseInt(s, 10)`: after leading whitespace, an optional sign and
a digit prefix; `none` is `NaN`. -/
def parseIntJS (s : JStr) : Option Int :=
  match s.dropWhile isJsWhitespace with
  | '-' :: rest => (leadingDigits rest).map (fun n => -(n : Int))
  | '+' :: rest => (leadingDigits rest).map (fun n => (n : Int))
  | cs => (leadingDigits cs).map (fun n => (n : Int))

/-- JS `x || 1` applied to a `parseInt` result: `NaN` and `0` fall back
to 1. -/
def jsOrOneInt (x : Option Int) : Int :=
  match x with
  | none => 1
  | some 0 => 1
  | some n => n

/-- JS `toLowerCase`. -/
def jsLower (s : JStr) : JStr := s.map Char.toLower

/-- The regex test `^\d{4}-\d{2}-\d{2}$`. -/
def matchesISO (s : JStr) : Bool :=
  match s with
  | [a, b, c, d, e, f, g, h, i, j] =>
    a.isDigit && b.isDigit && c.isDigit && d.isDigit && e == '-' &&
      f.isDigit && g.isDigit && h == '-' && i.isDigit && j.isDigit
  | _ => false

/-- The regex test for `DD/MM/YYYY`. -/
def matchesDMY4 (s : JStr) : Bool :=
  match s with
  | [a, b, c, d, e, f, g, h, i, j] =>
    a.isDigit && b.isDigit && c == '/' && d.isDigit && e.isDigit && f == '/' &&
      g.isDigit && h.isDigit && i.isDigit && j.isDigit
  | _ => false

/-- The regex test for `DD/MM/YY`. -/
def matchesDMY2 (s : JStr) : Bool :=
  match s with
  | [a, b, c, d, e, f, g, h] =>
    a.isDigit && b.isDigit && c == '/' && d.isDigit && e.isDigit && f == '/' &&
      g.isDigit && h.isDigit
  | _ => false

/-- `split('/')` and reassembly of a `DD/MM/YYYY` cell into `YYYY-MM-DD`. -/
def convDMY4 (s : JStr) : JStr :=
  match s with
  | [a, b, _, d, e, _, g, h, i, j] => [g, h, i, j, '-', d, e, '-', a, b]
  | _ => s

/-- `DD/MM/YY` with the century rule `parseInt(year) < 50 ? 20xx : 19xx`. -/
def convDMY2 (s : JStr) : JStr :=
  match s with
  | [a, b, _, d, e, _, g, h] =>
    (if digitVal g * 10 + digitVal h < 50 then ['2', '0', g, h]
     else ['1', '9', g, h]) ++ ['-', d, e, '-', a, b]
  | _ => s

/-- `parseDateString` from `handleImportFile`.  `jsParse` is the host
`new Date(...)` free-form parser, giving a day number when the string is
a valid date; `d.toISOString().split('T')[0]` is then `dayToIso`. -/
def parseDateString (jsParse : JStr → Option Int) (val : JStr) : Option JStr :=
  if val = [] ∨ val = ['-'] ∨ jsTrim val = [] then none
  else
    let cleaned := jsTrim val
    if matchesISO cleaned then some cleaned
    else if matchesDMY4 cleaned then some (convDMY4 cleaned)
    else if matchesDMY2 cleaned then some (convDMY2 cleaned)
    else
      match jsParse cleaned with
      | some z => some (dayToIso z)
      | none => none

/-- A parsed CSV row: the header-keyed cell map `parseCSV` produces.
A missing key reads as the empty cell, as `row['X'] || ...` treats it. -/
abbrev Row := List (JStr × JStr)

/-- `row[key]`, empty when absent. -/
def rowGet (row : Row) (key : JStr) : JStr :=
  match row.find? (fun kv => kv.1 == key) with
  | some kv => kv.2
  | none => []

/-- `row['Task Name'] || row['Task'] || row['Name'] || row['name']`. -/
def rowName (row : Row) : JStr :=
  jsOr (jsOr (jsOr (rowGet row "Task Name".data) (rowGet row "Task".data))
    (rowGet row "Name".data)) (rowGet row "name".data)

/-- `row['Category'] || 'Imported'`. -/
def rowCategory (row : Row) : JStr :=
  jsOr (rowGet row "Category".data) "Imported".data

/-- `row['Subcategory'] || row['Sub Category'] || ''`. -/
def rowSubcategory (row : Row) : JStr :=
  jsOr (rowGet row "Subcategory".data) (rowGet row "Sub Category".data)

/-- `row['SubSubcategory'] || row['Sub Subcategory'] || ''`. -/
def rowSubsubcategory (row : Row) : JStr :=
  jsOr (rowGet row "SubSubcategory".data) (rowGet row "Sub Subcategory".data)

/-- `String(row['Duration'] || row['Duration (Days)'] || '1')`. -/
def rowDurationCell (row : Row) : JStr :=
  jsOr (jsOr (rowGet row "Duration".data) (rowGet row "Duration (Days)".data)) "1".data

/-- `String(row['Plan Start'] || row['Start'] || '')`. -/
def rowPlanStartCell (row : Row) : JStr :=
  jsOr (rowGet row "Plan Start".data) (rowGet row "Start".data)

/-- `String(row['Type'] || '').toLowerCase() === 'group'`. -/
def rowIsGroup (row : Row) : Bool :=
  jsLower (rowGet row "Type".data) == "group".data

/-- The record pushed onto `tasksToCreate` for one CSV row.  The
floating-point cells (`cost`, `progress`) and the free-text `quantity`
and `responsible` cells are outside the verified properties and are not
modelled. -/
structure ImportedTask where
  id : JStr
  name : JStr
  category : JStr
  subcategory : Option JStr
  subsubcategory : Option JStr
  planStartDate : JStr
  planEndDate : JStr
  planDuration : Int
  status : Status
  order : Int
  type : TaskType
  parentTaskId : Option JStr
  predecessors : Option (List JStr)
  deriving DecidableEq, Repr

/-- The ambient context of one `handleImportFile` run: the host free-form
date parser, today's formatted date (`format(new Date(), 'yyyy-MM-dd')`),
the id supply (`getNewTaskId`, one fresh id per processed row) and
`currentMaxOrder`. -/
structure ImportParams where
  jsParse : JStr → Option Int
  todayStr : JStr
  idGen : Nat → JStr
  currentMaxOrder : Int

/-- The loop state of `handleImportFile`: `activeGroup` (id and
category), `lastTaskId`, `count` and the accumulated `tasksToCreate`. -/
structure ImportState where
  activeGroup : Option (JStr × JStr)
  lastTaskId : Option JStr
  count : Nat
  tasksToCreate : List ImportedTask
  deriving DecidableEq, Repr

/-- Loop state on entry: `lastTaskId` seeded from the already-loaded
task list. -/
def initImportState (lastId : Option JStr) : ImportState :=
  { activeGroup := none, lastTaskId := lastId, count := 0, tasksToCreate := [] }

/-- One iteration of the `for (const row of data)` loop in
`handleImportFile`.  A row without a name is skipped (`continue`).  A
`planStart` string `parseISO` cannot read makes `format(addDays(...))`
throw, aborting the import into the surrounding catch (`Except.error`). -/
def importStep (p : ImportParams) (st : ImportState) (row : Row) :
    Except JStr ImportState :=
  let name := rowName row
  if name = [] then .ok st
  else
    let category := rowCategory row
    let subcategory := rowSubcategory row
    let subsubcategory := rowSubsubcategory row
    let duration := jsOrOneInt (parseIntJS (rowDurationCell row))
    let planStart :=
      match parseDateString p.jsParse (rowPlanStartCell row) with
      | some s => s
      | none => p.todayStr
    match isoToDay planStart with
    | none => .error "Invalid time value".data
    | some startDay =>
      let planEnd := dayToIso (startDay + (duration - 1))
      let type : TaskType := if rowIsGroup row then .group else .task
      let newTaskId := p.idGen st.count
      let scope : Option JStr × Option (JStr × JStr) :=
        if type = .group then (none, some (newTaskId, category))
        else
          match st.activeGroup with
          | some g => if g.2 == category then (some g.1, st.activeGroup) else (none, none)
          | none => (none, none)
      let predecessors : Option (List JStr) :=
        match st.lastTaskId with
        | some lid => if type ≠ .group then some [lid] else none
        | none => none
      let task : ImportedTask :=
        { id := newTaskId, name := name, category := category,
          subcategory := if subcategory = [] then none else some subcategory,
          subsubcategory := if subsubcategory = [] then none else some subsubcategory,
          planStartDate := planStart, planEndDate := planEnd, planDuration := duration,
          status := .notStarted, order := p.currentMaxOrder + (st.count : Int) + 1,
          type := type, parentTaskId := scope.1, predecessors := predecessors }
      .ok { activeGroup := scope.2,
            lastTaskId := if type ≠ .group then some newTaskId else st.lastTaskId,
            count := st.count + 1,
            tasksToCreate := st.tasksToCreate ++ [task] }

/-- The whole row loop of `handleImportFile`. -/
def processRows (p : ImportParams) : ImportState → List Row → Except JStr ImportState
  | st, [] => .ok st
  | st, r :: rs =>
    match importStep p st r with
    | .ok st' => processRows p st' rs
    | .error e => .error e

/-- `handleImportFile` after `parseCSV`: zero parsed rows throw
`File is empty or invalid`; otherwise the loop runs and the import
reports `Import completed: count records` — modelled as
`.ok (tasksToCreate, count)` (the chunked `batchCreateTasks` writes
exactly `tasksToCreate`). -/
def processImport (p : ImportParams) (lastId : Option JStr) (data : List Row) :
    Except JStr (List ImportedTask × Nat) :=
  if data.length = 0 then .error "File is empty or invalid".data
  else
    match processRows p (initImportState lastId) data with
    | .ok st => .ok (st.tasksToCreate, st.count)
    | .error e => .error e

/-- The date fields computed by `handleAddTask`: `planDuration =
Math.max(1, parseInt(duration) || 1)` and the storage end date
`format(addDays(parseISO(planStartDate), planDuration - 1))`; the
`catch` branch keeps the raw start string when `parseISO` throws. -/
def addTaskPlan (durationValue planStartDate : JStr) : Int × JStr :=
  let planDuration := max 1 (jsOrOneInt (parseIntJS durationValue))
  let storageEndDate :=
    match isoToDay planStartDate with
    | some z => dayToIso (z + (planDuration - 1))
    | none => planStartDate
  (planDuration, storageEndDate)

/-- Import context for the concrete import scenarios: no-op free-form
parser, import date 2024-06-01, ids `t0000`, `t0001`, ... -/
def importTestParams : ImportParams :=
  { jsParse := fun _ => none, todayStr := "2024-06-01".data,
    idGen := fun n => 't' :: pad4 (n : Int), currentMaxOrder := 0 }

/-- A CSV `group` row (category Civil) for the scoping scenario. -/
def c5GroupRow : Row :=
  [("Task Name".data, "Structure".data), ("Type".data, "group".data),
   ("Category".data, "Civil".data), ("Plan Start".data, "2024-03-10".data)]

/-- A non-group CSV row in the same category Civil. -/
def c5TaskRowSame : Row :=
  [("Task Name".data, "Footings".data), ("Category".data, "Civil".data),
   ("Plan Start".data, "2024-03-11".data)]

/-- A non-group CSV row in a different category. -/
def c5TaskRowOther : Row :=
  [("Task Name".data, "Wiring".data), ("Category".data, "Electrical".data),
   ("Plan Start".data, "2024-03-12".data)]

/-- The CSV row with a negative `Duration` cell that drives the plan end
before the plan start on import. -/
def c7Row : Row :=
  [("Task Name".data, "Excavation".data), ("Duration".data, "-5".data),
   ("Plan Start".data, "2024-03-10".data)]

/-- A parsed CSV row with no name cell at all (skipped by the loop). -/
def c8NamelessRow : Row :=
  [("Category".data, "Civil".data), ("Plan Start".data, "2024-03-10".data)]

/-- date-fns `startOfWeek(d, { weekStartsOn: 1 })` on day numbers: day 0
(1970-01-01) is a Thursday, so `(d + 3) % 7` is the Monday-based weekday
index. -/
def startOfWeekMonday (d : Int) : Int := d - (d + 3) % 7

/-- date-fns `endOfWeek(d, { weekStartsOn: 1 })`: the Sunday of `d`'s
week. -/
def endOfWeekMonday (d : Int) : Int := startOfWeekMonday d + 6

/-- date-fns `subWeeks`. -/
def subWeeksDays (d n : Int) : Int := d - 7 * n

/-- date-fns `addWeeks`. -/
def addWeeksDays (d n : Int) : Int := d + 7 * n

/-- `fourWeekRange.startDate` in GanttClient. -/
def fourWeekRangeStart (today : Int) : Int :=
  startOfWeekMonday (subWeeksDays today 1)

/-- `fourWeekRange.endDate` in GanttClient. -/
def fourWeekRangeEnd (today : Int) : Int :=
  endOfWeekMonday (addWeeksDays today 2)

/-- `effectiveStartDate` in GanttClient. -/
def effectiveStartDate (mode : WindowMode) (today : Int)
    (projectStartDate : Option Int) : Option Int :=
  match mode with
  | .fourW => some (fourWeekRangeStart today)
  | .project => projectStartDate

/-- `effectiveEndDate` in GanttClient. -/
def effectiveEndDate (mode : WindowMode) (today : Int)
    (projectEndDate : Option Int) : Option Int :=
  match mode with
  | .fourW => some (fourWeekRangeEnd today)
  | .project => projectEndDate

/-- The `useEffect` that re-forces the chart zoom: in `'4w'` mode any
zoom other than day is reset to day, otherwise the selection stands. -/
def nextChartViewMode (mode : WindowMode) (current : ViewMode) : ViewMode :=
  if mode = .fourW ∧ current ≠ .day then .day else current

/-- `allowedViewModes` passed to the chart. -/
def allowedViewModes (mode : WindowMode) : List ViewMode :=
  match mode with
  | .fourW => [.day]
  | .project => [.day, .week, .month]

/-- The prefilled modal data produced by `handleAddSubTask`. -/
structure AddTaskInitial where
  parentTaskId : Option Nat
  category : JStr
  subcategory : JStr
  subsubcategory : JStr
  type : TaskType
  planStartDate : Int
  deriving DecidableEq, Repr

/-- `siblingTasks` in `handleAddSubTask`: the non-group children of the
parent. -/
def siblingTasks (tasks : List Task) (parentId : Nat) : List Task :=
  tasks.filter (fun t => t.parentTaskId == some parentId && !(t.type == TaskType.group))

/-- `handleAddSubTask`: seeds the AddTask modal for a new child of
`parentId`.  With dates as day numbers `parseISO(maxEndDate)` cannot
throw, so the `catch` fallback to the raw string is unreachable;
`format(new Date(), 'yyyy-MM-dd')` is `today`. -/
def handleAddSubTask (tasks : List Task) (today : Int) (parentId : Nat) :
    Option AddTaskInitial :=
  match tasks.find? (fun t => t.id == parentId) with
  | none => none
  | some parent =>
    let defaultStartDate : Int :=
      match siblingTasks tasks parentId with
      | [] =>
        match parent.planStartDate with
        | some p => p
        | none => today
      | s0 :: rest =>
        let maxEndDate := (s0 :: rest).foldl
          (fun acc t => if t.planEndDate > acc then t.planEndDate else acc)
          s0.planEndDate
        maxEndDate + 1
    some { parentTaskId := some parentId, category := parent.category,
           subcategory := parent.subcategory.getD [],
           subsubcategory := parent.subsubcategory.getD [],
           type := .task, planStartDate := defaultStartDate }

/-- Parent group task for the add-subtask scenario. -/
def c10Parent : Task :=
  { id := 1, parentTaskId := none, type := .group, category := "Civil".data,
    subcategory := some "Earthworks".data, subsubcategory := none,
    planStartDate := some 100, planEndDate := 130, progress := 0,
    status := .notStarted, actualStartDate := none, actualEndDate := none,
    progressUpdatedAt := none, remarks := none }

/-- First child of the scenario parent (plan end day 110). -/
def c10Child1 : Task :=
  { c10Parent with
    id := 2, parentTaskId := some 1, type := .task, planEndDate := 110 }

/-- Second child of the scenario parent (plan end day 120). -/
def c10Child2 : Task :=
  { c10Parent with
    id := 3, parentTaskId := some 1, type := .task, planEndDate := 120 }

/-- Task list for the add-subtask scenario. -/
def c10Tasks : List Task := [c10Parent, c10Child1, c10Child2]

/-- A host date parser that recognises nothing (every free-form cell is
unparseable). -/
def jsParseNone : JStr → Option Int := fun _ => none

/-- A host date parser that recognises exactly the free-form string
`March 10, 2024` (as its day number). -/
def jsParseMarch : JStr → Option Int :=
  fun s => if s = "March 10, 2024".data then some (daysFromCivil 2024 3 10) else none

/-- A CSV row whose `Plan Start` cell no parser accepts. -/
def c6BadDateRow : Row :=
  [("Task Name".data, "Paint".data), ("Plan Start".data, "soon".data)]

/-- The loop state after processing the group row from the initial
state. -/
def c5AfterGroup : ImportState :=
  match importStep importTestParams (initImportState none) c5GroupRow with
  | .ok st => st
  | .error _ => initImportState none

/-- The loop state after processing the bad-date row from the initial
state. -/
def c6AfterBadDate : ImportState :=
  match importStep importTestParams (initImportState none) c6BadDateRow with
  | .ok st => st
  | .error _ => initImportState none

/-- The single task the negative-duration import creates. -/
def c7Task : ImportedTask :=
  { id := "t0000".data, name := "Excavation".data, category := "Imported".data,
    subcategory := none, subsubcategory := none,
    planStartDate := "2024-03-10".data, planEndDate := "2024-03-04".data,
    planDuration := -5, status := .notStarted, order := 1, type := .task,
    parentTaskId := none, predecessors := none }

/-- C1: 0 < progress < 100 starts the task: unset actual start falls back
to the plan start, a set actual start becomes the minimum of itself and
the update date. -/
theorem c1_progress_update_actual_start (task : Task) (p d : Int) (r : Option JStr)
    (h0 : 0 < p) (h100 : p < 100) :
    ((task.actualStartDate = none →
        (handleProgressUpdate task p d r).status = Status.inProgress ∧
        (handleProgressUpdate task p d r).actualStartDate = task.planStartDate) ∧
      (∀ a, task.actualStartDate = some a →
        (handleProgressUpdate task p d r).status = Status.inProgress ∧
        (handleProgressUpdate task p d r).actualStartDate = some (min a d))) := by
  have h1 : ¬ (p = -1) := by omega
  have h2 : ¬ (p = 100) := by omega
  constructor
  · intro hnone
    unfold handleProgressUpdate
    simp only [if_neg h1, if_neg h2, hnone]
    have h3 : (p > 0 ∨ p = -1) := Or.inl h0
    rw [if_pos h3, if_neg (by omega : ¬ (p = 0)), if_pos h0]
    cases r <;> cases task.actualEndDate <;> simp
  · intro a ha
    unfold handleProgressUpdate
    simp only [if_neg h1, if_neg h2, ha]
    have h3 : (p > 0 ∨ p = -1) := Or.inl h0
    rw [if_pos h3, if_neg (by omega : ¬ (p = 0)), if_pos h0]
    by_cases hlt : d < a
    · rw [if_pos hlt]
      have : min a d = d := by omega
      rw [this]
      cases r <;> cases task.actualEndDate <;> simp
    · rw [if_neg hlt]
      have : min a d = a := by omega
      rw [this]
      cases r <;> cases task.actualEndDate <;> simp

/-- Witness for C1 at a concrete input (the spec scenario: plan start
2024-01-01 = day 1, update progress 50 on day 10). -/
theorem c1_progress_update_actual_start_witness :
    (0 : Int) < 50 ∧ (50 : Int) < 100 ∧
    (freshTask.actualStartDate = none →
      (handleProgressUpdate freshTask 50 10 none).status = Status.inProgress ∧
      (handleProgressUpdate freshTask 50 10 none).actualStartDate =
        freshTask.planStartDate) :=
  ⟨by decide, by decide,
    (c1_progress_update_actual_start freshTask 50 10 none (by decide) (by decide)).1⟩

/-- C2 counterexample: regressing the completed task (actual start day 5,
actual end day 20) to progress 0 on day 25 clears `actualStartDate`
(sets it to `''`), although the update date 25 does not precede the
recorded actual start 5 — the claim predicted "unchanged". -/
theorem c2_counterexample :
    completedTask.progress = 100 ∧
    completedTask.actualEndDate = some 20 ∧
    completedTask.actualStartDate = some 5 ∧
    ¬ ((25 : Int) < 5) ∧
    (handleProgressUpdate completedTask 0 25 none).actualStartDate = none ∧
    (handleProgressUpdate completedTask 0 25 none).actualStartDate ≠
      completedTask.actualStartDate := by
  decide

/-- C2 (amended): after any `handleProgressUpdate`, progress = 100 iff
status = completed iff actualEndDate is set, and then actualEndDate is the
update date.  Regressing a started task to 0 < p < 100 sets in-progress,
clears actualEndDate and makes actualStartDate the minimum of its old
value and the update date; regressing to exactly 0 (not the starting-work
sentinel) sets not-started and clears actualStartDate as well. -/
theorem c2_progress_status_end_date (task : Task) (p d : Int) (r : Option JStr) :
    ((handleProgressUpdate task p d r).progress = 100 ↔
      (handleProgressUpdate task p d r).status = Status.completed) ∧
    ((handleProgressUpdate task p d r).progress = 100 ↔
      (handleProgressUpdate task p d r).actualEndDate = some d) ∧
    ((handleProgressUpdate task p d r).actualEndDate = none ∨
      (handleProgressUpdate task p d r).actualEndDate = some d) ∧
    (0 < p → p < 100 → ∀ a, task.actualStartDate = some a →
      (handleProgressUpdate task p d r).status = Status.inProgress ∧
      (handleProgressUpdate task p d r).actualEndDate = none ∧
      (handleProgressUpdate task p d r).actualStartDate = some (min a d)) ∧
    (p = 0 →
      (handleProgressUpdate task p d r).status = Status.notStarted ∧
      (handleProgressUpdate task p d r).actualEndDate = none ∧
      (handleProgressUpdate task p d r).actualStartDate = none) := by
  by_cases h1 : p = -1
  · subst h1
    unfold handleProgressUpdate
    cases r <;> cases hs : task.actualStartDate <;> cases he : task.actualEndDate <;>
      simp [hs, he]
  · by_cases h100 : p = 100
    · subst h100
      unfold handleProgressUpdate
      cases r <;> cases hs : task.actualStartDate <;> cases he : task.actualEndDate <;>
        simp [hs, he] <;> (try split_ifs) <;> (try simp_all) <;> (try omega)
    · by_cases h0 : p = 0
      · subst h0
        unfold handleProgressUpdate
        cases r <;> cases hs : task.actualStartDate <;> cases he : task.actualEndDate <;>
          simp [hs, he] <;> (try split_ifs) <;> (try simp_all) <;> (try omega)
      · by_cases hpos : 0 < p
        · -- 0 < p, p ≠ 100: either 0 < p < 100 or p > 100
          unfold handleProgressUpdate
          simp only [if_neg h1, if_neg h100, if_pos (Or.inl hpos : p > 0 ∨ p = -1),
            if_neg h0, if_pos hpos]
          cases r <;> cases hs : task.actualStartDate <;> cases he : task.actualEndDate <;>
            simp [hs, he, h100] <;> (try split_ifs) <;> (try simp_all) <;> (try omega)
        · -- p < 0 and p ≠ -1
          unfold handleProgressUpdate
          simp only [if_neg h1, if_neg h100,
            if_neg (by omega : ¬ (p > 0 ∨ p = -1)), if_neg h0, if_neg hpos]
          cases r <;> cases hs : task.actualStartDate <;> cases he : task.actualEndDate <;>
            simp [hs, he] <;> (try split_ifs) <;> (try simp_all) <;> (try omega)

/-- Witness for C2 at concrete inputs: the completed task regressed to 60
(day 25) and to 0 (day 25). -/
theorem c2_progress_status_end_date_witness :
    ((0 : Int) < 60 ∧ (60 : Int) < 100 ∧ completedTask.actualStartDate = some 5 ∧
      ((handleProgressUpdate completedTask 60 25 none).status = Status.inProgress ∧
        (handleProgressUpdate completedTask 60 25 none).actualEndDate = none ∧
        (handleProgressUpdate completedTask 60 25 none).actualStartDate = some (min 5 25))) ∧
    ((handleProgressUpdate completedTask 0 25 none).status = Status.notStarted ∧
      (handleProgressUpdate completedTask 0 25 none).actualEndDate = none ∧
      (handleProgressUpdate completedTask 0 25 none).actualStartDate = none) :=
  ⟨⟨by decide, by decide, by decide,
      (c2_progress_status_end_date completedTask 60 25 none).2.2.2.1
        (by decide) (by decide) 5 (by decide)⟩,
    (c2_progress_status_end_date completedTask 0 25 none).2.2.2.2 rfl⟩

/-- Sums of pointwise sums over a list split. -/
theorem list_sum_map_add {α : Type} (f g : α → Nat) (l : List α) :
    (l.map (fun x => f x + g x)).sum = (l.map f).sum + (l.map g).sum := by
  induction l with
  | nil => simp
  | cons a t ih => simp [ih]; omega

/-- Sums of pointwise constant multiples over a list factor. -/
theorem list_sum_map_mul {α : Type} (f : α → Nat) (c : Nat) (l : List α) :
    (l.map (fun x => f x * c)).sum = (l.map f).sum * c := by
  induction l with
  | nil => simp
  | cons a t ih => simp [ih, Nat.add_mul]

/-- A filter's length is the sum of the indicator over the list. -/
theorem list_length_filter_eq_sum {α : Type} (p : α → Bool) (l : List α) :
    (l.filter p).length = (l.map (fun x => if p x then 1 else 0)).sum := by
  induction l with
  | nil => simp
  | cons a t ih => by_cases h : p a <;> simp [List.filter_cons, h, ih] <;> omega

/-- Double counting: when every item matches exactly one group, the
per-group match counts sum to the number of items. -/
theorem sum_header_counts {G I : Type} (M : G → I → Bool) (groups : List G)
    (items : List I)
    (h : ∀ i ∈ items, (groups.filter (fun g => M g i)).length = 1) :
    (groups.map (fun g => (items.filter (fun i => M g i)).length)).sum
      = items.length := by
  induction items with
  | nil => simp
  | cons i t ih =>
    have h1 : (groups.filter (fun g => M g i)).length = 1 := h i (by simp)
    have ih' := ih (fun j hj => h j (by simp [hj]))
    have hstep : ∀ g : G, ((i :: t).filter (fun x => M g x)).length
        = (if M g i then 1 else 0) + (t.filter (fun x => M g x)).length := by
      intro g; by_cases hg : M g i <;> simp [List.filter_cons, hg] <;> omega
    rw [show (fun g => ((i :: t).filter (fun x => M g x)).length)
          = (fun g => (if M g i then 1 else 0) + (t.filter (fun x => M g x)).length)
        from funext hstep]
    rw [list_sum_map_add, ← list_length_filter_eq_sum, h1, ih']
    simp only [List.length_cons]
    omega

/-- C4: every group header cell is (count of items belonging to the
group) × cellWidth, and when every item belongs to exactly one group the
group widths sum to items.length × cellWidth — no gaps even for partial
groups. -/
theorem c4_header_group_widths (viewMode : ViewMode) (items groups : List CalDate)
    (cellWidth : Nat)
    (hpart : ∀ i ∈ items, (groups.filter (fun g => belongsTo viewMode i g)).length = 1) :
    (∀ g ∈ groups, headerGroupWidth viewMode items cellWidth g
        = (items.filter (fun i => belongsTo viewMode i g)).length * cellWidth) ∧
    (groups.map (headerGroupWidth viewMode items cellWidth)).sum
        = items.length * cellWidth := by
  have hw : ∀ g : CalDate, headerGroupWidth viewMode items cellWidth g
      = (items.filter (fun i => belongsTo viewMode i g)).length * cellWidth := by
    intro g; cases viewMode <;> rfl
  refine ⟨fun g _ => hw g, ?_⟩
  rw [show groups.map (headerGroupWidth viewMode items cellWidth)
        = groups.map (fun g => (items.filter (fun i => belongsTo viewMode i g)).length * cellWidth)
      from List.map_congr_left (fun g _ => hw g)]
  rw [list_sum_map_mul]
  rw [sum_header_counts (fun g i => belongsTo viewMode i g) groups items hpart]

/-- Witness for C4: day zoom, items Jan, Jan, Feb 2024, groups Jan and
Feb 2024, cell width 5. -/
theorem c4_header_group_widths_witness :
    (∀ i ∈ c4Items, (c4Groups.filter (fun g => belongsTo .day i g)).length = 1) ∧
    ((∀ g ∈ c4Groups, headerGroupWidth .day c4Items 5 g
        = (c4Items.filter (fun i => belongsTo .day i g)).length * 5) ∧
      (c4Groups.map (headerGroupWidth .day c4Items 5)).sum = c4Items.length * 5) :=
  ⟨by decide, c4_header_group_widths .day c4Items c4Groups 5 (by decide)⟩

/-- C3: the S-curve `getX` agrees with the spec's Coordinate Mapper
contract at every date, timeline start, zoom level and cell width — the
same date-to-pixel mapping as the Gantt bars. -/
theorem c3_scurve_x_matches_mapper (viewMode : ViewMode) (cellWidth : ℚ)
    (timelineStart date : Int) :
    getX viewMode cellWidth timelineStart date =
      dateToX date timelineStart viewMode cellWidth := by
  cases viewMode <;> rfl

/-- C5: one import-loop iteration implements the group scoping: a
`group` row opens a scope under its fresh id (and itself gets no
parent), a non-group row in the open scope's category attaches to it and
keeps the scope, a non-group row in another category (or with no open
scope) gets no parent and closes the scope. -/
theorem c5_import_group_scoping (p : ImportParams) (st : ImportState) (row : Row)
    (st' : ImportState)
    (hname : rowName row ≠ [])
    (hstep : importStep p st row = .ok st') :
    ∃ t : ImportedTask,
      st'.tasksToCreate = st.tasksToCreate ++ [t] ∧
      t.id = p.idGen st.count ∧
      ((rowIsGroup row = true →
          st'.activeGroup = some (p.idGen st.count, rowCategory row) ∧
          t.type = TaskType.group ∧ t.parentTaskId = none) ∧
        (rowIsGroup row = false →
          t.type = TaskType.task ∧
          (∀ gid gcat, st.activeGroup = some (gid, gcat) → rowCategory row = gcat →
            t.parentTaskId = some gid ∧ st'.activeGroup = some (gid, gcat)) ∧
          (∀ gid gcat, st.activeGroup = some (gid, gcat) → rowCategory row ≠ gcat →
            t.parentTaskId = none ∧ st'.activeGroup = none) ∧
          (st.activeGroup = none →
            t.parentTaskId = none ∧ st'.activeGroup = none))) := by
  unfold importStep at hstep
  rw [if_neg hname] at hstep
  simp only [] at hstep
  cases hiso : isoToDay (match parseDateString p.jsParse (rowPlanStartCell row) with
      | some s => s
      | none => p.todayStr) with
  | none => rw [hiso] at hstep; exact absurd hstep (by simp)
  | some startDay =>
    rw [hiso] at hstep
    by_cases hg : rowIsGroup row
    · simp only [hg, if_true] at hstep
      rw [Except.ok.injEq] at hstep
      subst hstep
      refine ⟨_, rfl, rfl, fun _ => ⟨?_, ?_, ?_⟩, fun hfalse => absurd hg (by simp [hfalse])⟩ <;>
        simp
    · rw [Bool.not_eq_true] at hg
      simp only [hg, if_false] at hstep
      cases hag : st.activeGroup with
      | none =>
        rw [hag] at hstep
        rw [Except.ok.injEq] at hstep
        subst hstep
        refine ⟨_, rfl, rfl, fun htrue => absurd hg (by simp [htrue]), fun _ => ?_⟩
        refine ⟨by simp, ?_, ?_, fun _ => by simp⟩ <;>
          (intro gid gcat hsome; exact absurd hsome (by simp))
      | some g =>
        rw [hag] at hstep
        by_cases hcat : g.2 == rowCategory row
        · simp only [if_pos hcat] at hstep
          rw [Except.ok.injEq] at hstep
          subst hstep
          have hcat' : g.2 = rowCategory row := by
            simpa using hcat
          refine ⟨_, rfl, rfl, fun htrue => absurd hg (by simp [htrue]), fun _ => ?_⟩
          refine ⟨by simp, ?_, ?_, ?_⟩
          · intro gid gcat hsome hceq
            have : g = (gid, gcat) := by simpa using hsome
            subst this
            simp
          · intro gid gcat hsome hcne
            have : g = (gid, gcat) := by simpa using hsome
            subst this
            exact absurd hcat'.symm hcne
          · intro habs
            exact absurd habs (by simp)
        · simp only [if_neg hcat] at hstep
          rw [Except.ok.injEq] at hstep
          subst hstep
          have hcat' : ¬ g.2 = rowCategory row := by
            simpa using hcat
          refine ⟨_, rfl, rfl, fun htrue => absurd hg (by simp [htrue]), fun _ => ?_⟩
          refine ⟨by simp, ?_, ?_, ?_⟩
          · intro gid gcat hsome hceq
            have : g = (gid, gcat) := by simpa using hsome
            subst this
            exact absurd hceq.symm hcat'
          · intro gid gcat hsome hcne
            constructor <;> simp
          · intro habs
            exact absurd habs (by simp)

/-- Witness for C5: the group row processed from the initial state. -/
theorem c5_import_group_scoping_witness :
    rowName c5GroupRow ≠ [] ∧
    importStep importTestParams (initImportState none) c5GroupRow = .ok c5AfterGroup ∧
    (∃ t : ImportedTask,
      c5AfterGroup.tasksToCreate = (initImportState none).tasksToCreate ++ [t] ∧
      t.id = importTestParams.idGen (initImportState none).count ∧
      ((rowIsGroup c5GroupRow = true →
          c5AfterGroup.activeGroup
            = some (importTestParams.idGen (initImportState none).count,
                rowCategory c5GroupRow) ∧
          t.type = TaskType.group ∧ t.parentTaskId = none) ∧
        (rowIsGroup c5GroupRow = false →
          t.type = TaskType.task ∧
          (∀ gid gcat, (initImportState none).activeGroup = some (gid, gcat) →
            rowCategory c5GroupRow = gcat →
            t.parentTaskId = some gid ∧ c5AfterGroup.activeGroup = some (gid, gcat)) ∧
          (∀ gid gcat, (initImportState none).activeGroup = some (gid, gcat) →
            rowCategory c5GroupRow ≠ gcat →
            t.parentTaskId = none ∧ c5AfterGroup.activeGroup = none) ∧
          ((initImportState none).activeGroup = none →
            t.parentTaskId = none ∧ c5AfterGroup.activeGroup = none)))) :=
  ⟨by decide, by rfl,
    c5_import_group_scoping importTestParams (initImportState none) c5GroupRow
      c5AfterGroup (by decide) (by rfl)⟩

/-- `dropWhile` keeps a list none of whose elements satisfy the
predicate. -/
theorem dropWhile_eq_self_of_none (p : Char → Bool) (s : JStr)
    (h : ∀ c ∈ s, p c = false) : s.dropWhile p = s := by
  cases s with
  | nil => rfl
  | cons a t =>
    rw [List.dropWhile_cons, h a (by simp)]
    simp

/-- `jsTrim` keeps a whitespace-free string. -/
theorem jsTrim_of_no_ws (s : JStr) (h : ∀ c ∈ s, isJsWhitespace c = false) :
    jsTrim s = s := by
  unfold jsTrim
  rw [dropWhile_eq_self_of_none isJsWhitespace s h,
    dropWhile_eq_self_of_none isJsWhitespace s.reverse
      (fun c hc => h c (List.mem_reverse.mp hc)),
    List.reverse_reverse]

/-- A digit character is not JS whitespace. -/
theorem digit_not_ws {c : Char} (h : c.isDigit = true) :
    isJsWhitespace c = false := by
  cases hb : isJsWhitespace c
  · rfl
  · exfalso
    simp only [isJsWhitespace, Bool.or_eq_true, beq_iff_eq] at hb
    rcases hb with ((rfl | rfl) | rfl) | rfl <;> exact absurd h (by decide)

/-- A digit character is `==`-distinct from any non-digit character. -/
theorem digit_beq_eq_false {c d : Char} (h : c.isDigit = true)
    (hd : d.isDigit = false) : (c == d) = false := by
  cases hb : c == d
  · rfl
  · exfalso
    have hcd : c = d := by simpa using hb
    subst hcd
    rw [h] at hd
    exact absurd hd (by decide)

/-- C6: import date-cell parsing — `YYYY-MM-DD` is accepted verbatim,
`DD/MM/YYYY` is converted to `YYYY-MM-DD`, `DD/MM/YY` is converted with
century 20xx for a two-digit year < 50 and 19xx otherwise, any other
string the host date parser accepts is taken via its ISO rendering, and
a row whose date cell parses to nothing still gets created, with the
date of the import (today) as its plan start. -/
theorem c6_import_date_cells :
    (∀ (jp : JStr → Option Int) (y1 y2 y3 y4 m1 m2 d1 d2 : Char),
      ([y1, y2, y3, y4, m1, m2, d1, d2].all Char.isDigit) = true →
      parseDateString jp [y1, y2, y3, y4, '-', m1, m2, '-', d1, d2]
        = some [y1, y2, y3, y4, '-', m1, m2, '-', d1, d2]) ∧
    (∀ (jp : JStr → Option Int) (d1 d2 m1 m2 y1 y2 y3 y4 : Char),
      ([d1, d2, m1, m2, y1, y2, y3, y4].all Char.isDigit) = true →
      parseDateString jp [d1, d2, '/', m1, m2, '/', y1, y2, y3, y4]
        = some [y1, y2, y3, y4, '-', m1, m2, '-', d1, d2]) ∧
    (∀ (jp : JStr → Option Int) (d1 d2 m1 m2 y1 y2 : Char),
      ([d1, d2, m1, m2, y1, y2].all Char.isDigit) = true →
      parseDateString jp [d1, d2, '/', m1, m2, '/', y1, y2]
        = some ((if digitVal y1 * 10 + digitVal y2 < 50 then ['2', '0', y1, y2]
            else ['1', '9', y1, y2]) ++ ['-', m1, m2, '-', d1, d2])) ∧
    (∀ (jp : JStr → Option Int) (s : JStr) (z : Int),
      s ≠ [] → s ≠ ['-'] → jsTrim s ≠ [] →
      matchesISO (jsTrim s) = false → matchesDMY4 (jsTrim s) = false →
      matchesDMY2 (jsTrim s) = false → jp (jsTrim s) = some z →
      parseDateString jp s = some (dayToIso z)) ∧
    (∀ (p : ImportParams) (st : ImportState) (row : Row) (st' : ImportState),
      rowName row ≠ [] →
      parseDateString p.jsParse (rowPlanStartCell row) = none →
      importStep p st row = .ok st' →
      ∃ t : ImportedTask,
        st'.tasksToCreate = st.tasksToCreate ++ [t] ∧
        t.planStartDate = p.todayStr) := by
  refine ⟨?_, ?_, ?_, ?_, ?_⟩
  · intro jp y1 y2 y3 y4 m1 m2 d1 d2 hall
    simp only [List.all_cons, List.all_nil, Bool.and_eq_true, Bool.and_true] at hall
    obtain ⟨h1, h2, h3, h4, h5, h6, h7, h8⟩ := hall
    have htrim : jsTrim [y1, y2, y3, y4, '-', m1, m2, '-', d1, d2]
        = [y1, y2, y3, y4, '-', m1, m2, '-', d1, d2] := by
      refine jsTrim_of_no_ws _ ?_
      intro c hc
      simp only [List.mem_cons, List.not_mem_nil, or_false] at hc
      rcases hc with rfl | rfl | rfl | rfl | rfl | rfl | rfl | rfl | rfl | rfl
      exacts [digit_not_ws h1, digit_not_ws h2, digit_not_ws h3, digit_not_ws h4,
        by decide, digit_not_ws h5, digit_not_ws h6, by decide,
        digit_not_ws h7, digit_not_ws h8]
    have hiso : matchesISO [y1, y2, y3, y4, '-', m1, m2, '-', d1, d2] = true := by
      simp [matchesISO, h1, h2, h3, h4, h5, h6, h7, h8]
    simp [parseDateString, htrim, hiso]
  · intro jp d1 d2 m1 m2 y1 y2 y3 y4 hall
    simp only [List.all_cons, List.all_nil, Bool.and_eq_true, Bool.and_true] at hall
    obtain ⟨h1, h2, h3, h4, h5, h6, h7, h8⟩ := hall
    have htrim : jsTrim [d1, d2, '/', m1, m2, '/', y1, y2, y3, y4]
        = [d1, d2, '/', m1, m2, '/', y1, y2, y3, y4] := by
      refine jsTrim_of_no_ws _ ?_
      intro c hc
      simp only [List.mem_cons, List.not_mem_nil, or_false] at hc
      rcases hc with rfl | rfl | rfl | rfl | rfl | rfl | rfl | rfl | rfl | rfl
      exacts [digit_not_ws h1, digit_not_ws h2, by decide, digit_not_ws h3,
        digit_not_ws h4, by decide, digit_not_ws h5, digit_not_ws h6,
        digit_not_ws h7, digit_not_ws h8]
    have hnotiso : matchesISO [d1, d2, '/', m1, m2, '/', y1, y2, y3, y4] = false := by
      simp [matchesISO, (by decide : ('/' : Char).isDigit = false)]
    have hdmy : matchesDMY4 [d1, d2, '/', m1, m2, '/', y1, y2, y3, y4] = true := by
      simp [matchesDMY4, h1, h2, h3, h4, h5, h6, h7, h8]
    simp [parseDateString, htrim, hnotiso, hdmy, convDMY4]
  · intro jp d1 d2 m1 m2 y1 y2 hall
    simp only [List.all_cons, List.all_nil, Bool.and_eq_true, Bool.and_true] at hall
    obtain ⟨h1, h2, h3, h4, h5, h6⟩ := hall
    have htrim : jsTrim [d1, d2, '/', m1, m2, '/', y1, y2]
        = [d1, d2, '/', m1, m2, '/', y1, y2] := by
      refine jsTrim_of_no_ws _ ?_
      intro c hc
      simp only [List.mem_cons, List.not_mem_nil, or_false] at hc
      rcases hc with rfl | rfl | rfl | rfl | rfl | rfl | rfl | rfl
      exacts [digit_not_ws h1, digit_not_ws h2, by decide, digit_not_ws h3,
        digit_not_ws h4, by decide, digit_not_ws h5, digit_not_ws h6]
    have hnotiso : matchesISO [d1, d2, '/', m1, m2, '/', y1, y2] = false := rfl
    have hnotdmy4 : matchesDMY4 [d1, d2, '/', m1, m2, '/', y1, y2] = false := rfl
    have hdmy2 : matchesDMY2 [d1, d2, '/', m1, m2, '/', y1, y2] = true := by
      simp [matchesDMY2, h1, h2, h3, h4, h5, h6]
    simp [parseDateString, htrim, hnotiso, hnotdmy4, hdmy2, convDMY2]
  · intro jp s z hne hdash htrimne hnotiso hnotdmy4 hnotdmy2 hjp
    simp [parseDateString, hne, hdash, htrimne, hnotiso, hnotdmy4, hnotdmy2, hjp]
  · intro p st row st' hname hdate hstep
    unfold importStep at hstep
    rw [if_neg hname] at hstep
    simp only [hdate] at hstep
    cases hiso : isoToDay p.todayStr with
    | none => rw [hiso] at hstep; exact absurd hstep (by simp)
    | some startDay =>
      rw [hiso] at hstep
      rw [Except.ok.injEq] at hstep
      subst hstep
      exact ⟨_, rfl, rfl⟩

/-- Witness for C6: the four cell formats at concrete strings, and the
bad-date row created with plan start = the import date. -/
theorem c6_import_date_cells_witness :
    parseDateString jsParseNone ['2', '0', '2', '4', '-', '0', '1', '-', '0', '5']
      = some ['2', '0', '2', '4', '-', '0', '1', '-', '0', '5'] ∧
    parseDateString jsParseNone ['1', '0', '/', '0', '1', '/', '2', '0', '2', '4']
      = some ['2', '0', '2', '4', '-', '0', '1', '-', '1', '0'] ∧
    parseDateString jsParseNone ['1', '0', '/', '0', '1', '/', '2', '4']
      = some ((if digitVal '2' * 10 + digitVal '4' < 50 then ['2', '0', '2', '4']
          else ['1', '9', '2', '4']) ++ ['-', '0', '1', '-', '1', '0']) ∧
    parseDateString jsParseMarch "March 10, 2024".data
      = some (dayToIso (daysFromCivil 2024 3 10)) ∧
    (∃ t : ImportedTask,
      c6AfterBadDate.tasksToCreate = (initImportState none).tasksToCreate ++ [t] ∧
      t.planStartDate = importTestParams.todayStr) :=
  ⟨c6_import_date_cells.1 jsParseNone '2' '0' '2' '4' '0' '1' '0' '5' (by decide),
    c6_import_date_cells.2.1 jsParseNone '1' '0' '0' '1' '2' '0' '2' '4' (by decide),
    c6_import_date_cells.2.2.1 jsParseNone '1' '0' '0' '1' '2' '4' (by decide),
    c6_import_date_cells.2.2.2.1 jsParseMarch "March 10, 2024".data
      (daysFromCivil 2024 3 10) (by decide) (by decide) (by decide) (by decide)
      (by decide) (by decide) (by decide),
    c6_import_date_cells.2.2.2.2 importTestParams (initImportState none)
      c6BadDateRow c6AfterBadDate (by decide) (by decide) (by rfl)⟩

/-- C7: the negative-duration CSV row is imported as created — with
`planDuration = -5` the computed plan end (2024-03-04) falls six days
before the plan start (2024-03-10), because the import loop uses the
parsed duration without `handleAddTask`'s `Math.max(1, ...)` clamp. -/
theorem c7_import_negative_duration_end_before_start :
    processImport importTestParams none [c7Row] = .ok ([c7Task], 1) ∧
    c7Task.planDuration = -5 ∧
    c7Task.planStartDate = "2024-03-10".data ∧
    c7Task.planEndDate = "2024-03-04".data ∧
    isoToDay c7Task.planStartDate = some (daysFromCivil 2024 3 10) ∧
    isoToDay c7Task.planEndDate = some (daysFromCivil 2024 3 4) ∧
    daysFromCivil 2024 3 4 < daysFromCivil 2024 3 10 := by
  refine ⟨by rfl, by decide, by decide, by decide, by decide, by decide, by decide⟩

/-- C8 counterexample: a parsed file with one (nameless) row is not
empty, creates nothing, and the import still reports success with 0
records — not the explicit failure the claim requires for zero valid
rows. -/
theorem c8_counterexample :
    ([c8NamelessRow] : List Row) ≠ [] ∧
    rowName c8NamelessRow = [] ∧
    processImport importTestParams none [c8NamelessRow] = .ok ([], 0) :=
  ⟨by decide, by decide, by rfl⟩

/-- C8 (amended): the import fails explicitly exactly when the parsed
file has zero rows; when rows exist but none has a non-empty name it
instead reports success with 0 records created. -/
theorem c8_empty_import (p : ImportParams) (lastId : Option JStr) (data : List Row) :
    (data = [] →
      processImport p lastId data = .error "File is empty or invalid".data) ∧
    (data ≠ [] → (∀ r ∈ data, rowName r = []) →
      processImport p lastId data = .ok ([], 0)) := by
  constructor
  · intro h
    subst h
    rfl
  · intro hne hall
    have hrows : ∀ (rows : List Row), (∀ r ∈ rows, rowName r = []) →
        ∀ st : ImportState, processRows p st rows = .ok st := by
      intro rows
      induction rows with
      | nil => intro _ st; rfl
      | cons r rs ih =>
        intro hall2 st
        have h1 : rowName r = [] := hall2 r (by simp)
        have h2 := ih (fun q hq => hall2 q (by simp [hq]))
        unfold processRows importStep
        rw [if_pos h1]
        exact h2 st
    unfold processImport
    rw [if_neg (by simpa [List.length_eq_zero] using hne),
      hrows data hall (initImportState lastId)]
    rfl

/-- Witness for C8 (amended): the empty file errors; the one-nameless-row
file succeeds with 0 records. -/
theorem c8_empty_import_witness :
    processImport importTestParams none [] = .error "File is empty or invalid".data ∧
    (([c8NamelessRow] : List Row) ≠ [] ∧
      (∀ r ∈ ([c8NamelessRow] : List Row), rowName r = []) ∧
      processImport importTestParams none [c8NamelessRow] = .ok ([], 0)) :=
  ⟨(c8_empty_import importTestParams none []).1 rfl,
    ⟨by decide, by decide,
      (c8_empty_import importTestParams none [c8NamelessRow]).2
        (by decide) (by decide)⟩⟩

/-- C9: in `'4w'` mode the zoom is forced to day and the effective range
is the Monday of the week one week before today through the Sunday of the
week two weeks after today, regardless of the selected project's dates. -/
theorem c9_four_week_window (today : Int) (vm : ViewMode) (ps pe ps2 pe2 : Option Int) :
    nextChartViewMode .fourW vm = .day ∧
    allowedViewModes .fourW = [.day] ∧
    effectiveStartDate .fourW today ps
      = some (startOfWeekMonday (subWeeksDays today 1)) ∧
    effectiveEndDate .fourW today pe
      = some (endOfWeekMonday (addWeeksDays today 2)) ∧
    (fourWeekRangeStart today + 3) % 7 = 0 ∧
    (fourWeekRangeEnd today + 3) % 7 = 6 ∧
    effectiveStartDate .fourW today ps = effectiveStartDate .fourW today ps2 ∧
    effectiveEndDate .fourW today pe = effectiveEndDate .fourW today pe2 := by
  refine ⟨?_, rfl, rfl, rfl, ?_, ?_, rfl, rfl⟩
  · cases vm <;> decide
  · unfold fourWeekRangeStart startOfWeekMonday subWeeksDays
    omega
  · unfold fourWeekRangeEnd endOfWeekMonday startOfWeekMonday addWeeksDays
    omega

/-- The fold in `handleAddSubTask` only grows its accumulator. -/
theorem foldl_planEnd_le (l : List Task) (a : Int) :
    a ≤ l.foldl (fun acc t => if t.planEndDate > acc then t.planEndDate else acc) a := by
  induction l generalizing a with
  | nil => exact le_refl a
  | cons t ts ih =>
    rw [List.foldl_cons]
    refine le_trans ?_ (ih (if t.planEndDate > a then t.planEndDate else a))
    split <;> omega

/-- The fold in `handleAddSubTask` bounds every member of the list. -/
theorem foldl_planEnd_mem_le (l : List Task) :
    ∀ (a : Int) (x : Task), x ∈ l →
      x.planEndDate
        ≤ l.foldl (fun acc t => if t.planEndDate > acc then t.planEndDate else acc) a := by
  induction l with
  | nil => intro a x hx; cases hx
  | cons t ts ih =>
    intro a x hx
    rw [List.foldl_cons]
    rcases List.mem_cons.mp hx with rfl | hmem
    · exact le_trans (by split <;> omega) (foldl_planEnd_le ts _)
    · exact ih _ x hmem

/-- The fold in `handleAddSubTask` returns its seed or a member. -/
theorem foldl_planEnd_mem_or (l : List Task) :
    ∀ a : Int,
      l.foldl (fun acc t => if t.planEndDate > acc then t.planEndDate else acc) a = a ∨
      ∃ x ∈ l,
        l.foldl (fun acc t => if t.planEndDate > acc then t.planEndDate else acc) a
          = x.planEndDate := by
  induction l with
  | nil => intro a; exact Or.inl rfl
  | cons t ts ih =>
    intro a
    rw [List.foldl_cons]
    rcases ih (if t.planEndDate > a then t.planEndDate else a) with h | ⟨x, hx, hfold⟩
    · rw [h]
      by_cases hgt : t.planEndDate > a
      · exact Or.inr ⟨t, by simp, by rw [if_pos hgt]⟩
      · exact Or.inl (by rw [if_neg hgt])
    · exact Or.inr ⟨x, by simp [hx], hfold⟩

/-- C10: `handleAddSubTask` finds the parent and seeds the modal with the
parent's category path and a deterministic start date: day after the
maximum child plan end when non-group children exist, else the parent's
plan start when set, else today. -/
theorem c10_add_subtask_seed (tasks : List Task) (today : Int) (pid : Nat)
    (parent : Task)
    (hfind : tasks.find? (fun t => t.id == pid) = some parent) :
    ∃ init : AddTaskInitial,
      handleAddSubTask tasks today pid = some init ∧
      init.parentTaskId = some pid ∧
      init.category = parent.category ∧
      init.subcategory = parent.subcategory.getD [] ∧
      init.subsubcategory = parent.subsubcategory.getD [] ∧
      init.type = TaskType.task ∧
      (siblingTasks tasks pid = [] → parent.planStartDate ≠ none →
        some init.planStartDate = parent.planStartDate) ∧
      (siblingTasks tasks pid = [] → parent.planStartDate = none →
        init.planStartDate = today) ∧
      (siblingTasks tasks pid ≠ [] →
        ∃ m, init.planStartDate = m + 1 ∧
          m ∈ (siblingTasks tasks pid).map (fun t => t.planEndDate) ∧
          ∀ x ∈ (siblingTasks tasks pid).map (fun t => t.planEndDate), x ≤ m) := by
  unfold handleAddSubTask
  rw [hfind]
  cases hsib : siblingTasks tasks pid with
  | nil =>
    cases hps : parent.planStartDate with
    | none =>
      refine ⟨_, rfl, rfl, rfl, rfl, rfl, rfl, ?_, ?_, ?_⟩
      · intro _ hne
        exact absurd rfl hne
      · intro _ _
        simp [hps]
      · intro hne
        exact absurd rfl hne
    | some pstart =>
      refine ⟨_, rfl, rfl, rfl, rfl, rfl, rfl, ?_, ?_, ?_⟩
      · intro _ _
        simp [hps]
      · intro _ habs
        exact absurd habs (by simp)
      · intro hne
        exact absurd rfl hne
  | cons s0 rest =>
    refine ⟨_, rfl, rfl, rfl, rfl, rfl, rfl, ?_, ?_, ?_⟩
    · intro habs
      exact absurd habs (by simp)
    · intro habs _
      exact absurd habs (by simp)
    · intro _
      refine ⟨(s0 :: rest).foldl
          (fun acc t => if t.planEndDate > acc then t.planEndDate else acc)
          s0.planEndDate, rfl, ?_, ?_⟩
      · rcases foldl_planEnd_mem_or (s0 :: rest) s0.planEndDate with h | ⟨x, hx, hfold⟩
        · rw [h]
          exact List.mem_map.mpr ⟨s0, by simp, rfl⟩
        · rw [hfold]
          exact List.mem_map.mpr ⟨x, hx, rfl⟩
      · intro v hv
        rcases List.mem_map.mp hv with ⟨x, hx, rfl⟩
        exact foldl_planEnd_mem_le (s0 :: rest) _ x hx

/-- Witness for C10: the parent with two children ending on days 110 and
120 seeds the new subtask at day 121 and inherits the category path. -/
theorem c10_add_subtask_seed_witness :
    c10Tasks.find? (fun t => t.id == 1) = some c10Parent ∧
    (∃ init : AddTaskInitial,
      handleAddSubTask c10Tasks 50 1 = some init ∧
      init.parentTaskId = some 1 ∧
      init.category = c10Parent.category ∧
      init.subcategory = c10Parent.subcategory.getD [] ∧
      init.subsubcategory = c10Parent.subsubcategory.getD [] ∧
      init.type = TaskType.task ∧
      (siblingTasks c10Tasks 1 = [] → c10Parent.planStartDate ≠ none →
        some init.planStartDate = c10Parent.planStartDate) ∧
      (siblingTasks c10Tasks 1 = [] → c10Parent.planStartDate = none →
        init.planStartDate = 50) ∧
      (siblingTasks c10Tasks 1 ≠ [] →
        ∃ m, init.planStartDate = m + 1 ∧
          m ∈ (siblingTasks c10Tasks 1).map (fun t => t.planEndDate) ∧
          ∀ x ∈ (siblingTasks c10Tasks 1).map (fun t => t.planEndDate), x ≤ m)) :=
  ⟨by decide, c10_add_subtask_seed c10Tasks 50 1 c10Parent (by decide)⟩

end Gantt
